import Mathlib

/-!
Shallow embedding of the identity and session-token subsystem of
NiceMusicLibrary (`backend/app/core/security.py`,
`backend/app/services/auth.py`, `backend/app/api/auth.py`).

Modelling conventions:
- Time is `Nat` (seconds since epoch); `now` is threaded explicitly where the
  Python code calls `datetime.now(UTC)`.
- A JWT is the inductive `Token`: `signed payload secret alg` stands for a
  well-formed token produced by `jose.jwt.encode`, `malformed raw` for any
  string that is not a structurally valid JWT.  `jose.jwt.decode` with
  `algorithms=["HS256"]` verifies the signature (same secret, allowed
  algorithm) and then the `exp` claim; every failure raises `JWTError`,
  which `decode_token` collapses to `none`.
- The bcrypt primitive is a parameter `bcrypt : Nat -> String -> String -> String`
  (cost, salt, password to digest); the embedding is parametric in it because
  the cryptographic core is opaque to the repository.  passlib's
  `CryptContext(schemes=["bcrypt"]).verify` first identifies the scheme from
  the hash string; an unidentifiable or malformed hash makes it raise
  (`UnknownHashError` / `MalformedHashError`), modelled as `Except.error`.
  The exact base64 length validation of the digest is not modelled; the
  `$2b$cost$salt(22 chars)digest` structure is.
- Database state is `Db`, a list of users; SQLAlchemy lookups become
  `List.find?`.  Service operations that mutate state return the post-state
  alongside the result; on exception paths the state is the unmodified input
  state, which is faithful to the code since every `raise` in the service
  happens before any mutation.
- The ORM user ids are UUIDs in the code; they are modelled as plain strings
  and the `str(user.id)` / `UUID(user_id)` round-trip as the identity.
- Python dict payloads carry `sub` / `exp` / `type` plus possibly further
  claims; `Payload.extra` holds any additional (string-valued) claims so that
  "exactly these three claims and no others" is expressible.  The dict key
  `"type"` is the field `typ` (`type` is a Lean keyword).
-/

set_option autoImplicit false

deriving instance DecidableEq for Except

/-- Process configuration (`app/core/config.py` settings consumed by the
token code): signing secret and the two TTLs. -/
structure Settings where
  SECRET_KEY : String
  ACCESS_TOKEN_EXPIRE_MINUTES : Nat
  REFRESH_TOKEN_EXPIRE_DAYS : Nat
  deriving Repr, DecidableEq

/-- A decoded JWT payload: the `sub`, `exp` and `type` claims, plus any
additional claims (`extra`).  A claim that is absent from the dict is
`none` / absent from `extra`. -/
structure Payload where
  sub : Option String
  exp : Option Nat
  typ : Option String
  extra : List (String × String)
  deriving Repr, DecidableEq

/-- A JWT as seen by the server: either a structurally valid token carrying
its payload, the secret it was signed with and the algorithm named in its
header, or a malformed string. -/
inductive Token where
  | signed (payload : Payload) (secret : String) (alg : String)
  | malformed (raw : String)
  deriving Repr, DecidableEq

/-- `ALGORITHM = "HS256"` pinned in `app/core/security.py`. -/
def ALGORITHM : String := "HS256"

/-- Errors raised by passlib's `CryptContext.verify` before any digest
comparison happens: the hash string matches no configured scheme, or it is
identified as bcrypt but cannot be parsed. -/
inductive PasslibError where
  | unknownHash
  | malformedHash
  deriving Repr, DecidableEq

/-- passlib scheme identification for `CryptContext(schemes=["bcrypt"])`:
a hash is handled iff it carries one of the bcrypt prefixes. -/
def bcryptIdentify (h : String) : Bool :=
  List.isPrefixOf "$2b$".data h.data || List.isPrefixOf "$2a$".data h.data ||
    List.isPrefixOf "$2y$".data h.data

/-- Decimal digits to a number (the cost field of a bcrypt hash);
`none` when a non-digit appears. -/
def decDigitsToNat : List Char → Nat → Option Nat
  | [], acc => some acc
  | c :: cs, acc =>
      if c.isDigit then decDigitsToNat cs (acc * 10 + (c.toNat - 48))
      else none

/-- Parse a bcrypt hash string `$2b$cost$<22-char salt><digest>` into
(cost, salt, digest).  Returns `none` when the scheme prefix, the cost
field, the field separator, or the salt section is missing. -/
def parseBcryptHash (h : String) : Option (Nat × String × String) :=
  if bcryptIdentify h then
    let body := h.data.drop 4
    let costChars := body.takeWhile (fun c => c != '$')
    match body.dropWhile (fun c => c != '$') with
    | '$' :: rest =>
        if rest.contains '$' || costChars.isEmpty then none
        else
          match decDigitsToNat costChars 0 with
          | some cost =>
              if 22 ≤ rest.length then
                some (cost, ⟨rest.take 22⟩, ⟨rest.drop 22⟩)
              else none
          | none => none
    | _ => none
  else none

/-- passlib `CryptContext(schemes=["bcrypt"]).verify(password, hash)`:
recompute the digest with the cost and salt embedded in `hash` and compare;
raise (`Except.error`) when the hash cannot be identified or parsed.
`bcrypt` is the digest primitive (cost, salt, password). -/
def crypt_context_verify (bcrypt : Nat → String → String → String)
    (password hash : String) : Except PasslibError Bool :=
  match parseBcryptHash hash with
  | some (cost, salt, digest) => .ok (bcrypt cost salt password == digest)
  | none =>
      .error (if bcryptIdentify hash then .malformedHash else .unknownHash)

/-- `verify_password` (`app/core/security.py`): delegates to
`pwd_context.verify` with no exception handling, so passlib errors
propagate to the caller. -/
def verify_password (bcrypt : Nat → String → String → String)
    (plain_password hashed_password : String) : Except PasslibError Bool :=
  crypt_context_verify bcrypt plain_password hashed_password

/-- `get_password_hash` (`app/core/security.py`): `pwd_context.hash`
produces a self-describing bcrypt hash; the fresh salt and the configured
cost are parameters of the model. -/
def get_password_hash (bcrypt : Nat → String → String → String)
    (cost : Nat) (salt password : String) : String :=
  "$2b$" ++ toString cost ++ "$" ++ salt ++ bcrypt cost salt password

/-- `create_access_token` (`app/core/security.py`): payload is exactly
`{"sub": subject, "exp": now + delta, "type": "access"}`, signed with
`settings.SECRET_KEY` and `HS256`.  When no delta is given the configured
session TTL applies. -/
def create_access_token (st : Settings) (subject : String)
    (expires_delta : Option Nat) (now : Nat) : Token :=
  let expire := now + expires_delta.getD (st.ACCESS_TOKEN_EXPIRE_MINUTES * 60)
  .signed { sub := some subject, exp := some expire, typ := some "access",
            extra := [] } st.SECRET_KEY ALGORITHM

/-- `create_refresh_token` (`app/core/security.py`): as the access token but
with `"type": "refresh"` and the configured refresh TTL (days). -/
def create_refresh_token (st : Settings) (subject : String)
    (expires_delta : Option Nat) (now : Nat) : Token :=
  let expire := now + expires_delta.getD (st.REFRESH_TOKEN_EXPIRE_DAYS * 86400)
  .signed { sub := some subject, exp := some expire, typ := some "refresh",
            extra := [] } st.SECRET_KEY ALGORITHM

/-- `decode_token` (`app/core/security.py`): `jose.jwt.decode` verifies the
signature (same secret, algorithm in the allowed list) and then the `exp`
claim, raising `JWTError` on any failure; the `except JWTError` clause
collapses every failure (malformed input, wrong secret, wrong algorithm,
lapsed expiry) to `none`. -/
def decode_token (st : Settings) (now : Nat) (token : Token) :
    Option Payload :=
  match token with
  | .malformed _ => none
  | .signed payload secret alg =>
      if secret = st.SECRET_KEY ∧ alg = ALGORITHM then
        match payload.exp with
        | some e => if e < now then none else some payload
        | none => some payload
      else none

/-- An account row (`app/models/user.py`, absent from the sources; fields as
read and written by the service and described by the spec data model). -/
structure User where
  id : String
  email : String
  username : String
  password_hash : String
  is_active : Bool
  last_login_at : Option Nat
  deriving Repr, DecidableEq

/-- The account table: the persistence collaborator's state. -/
structure Db where
  users : List User
  deriving Repr, DecidableEq

/-- `AuthService.get_user_by_email`: `SELECT ... WHERE email = :email`,
`scalar_one_or_none`. -/
def get_user_by_email (db : Db) (email : String) : Option User :=
  db.users.find? (fun u => u.email == email)

/-- `AuthService.get_user_by_username`. -/
def get_user_by_username (db : Db) (username : String) : Option User :=
  db.users.find? (fun u => u.username == username)

/-- `AuthService.get_user_by_id`. -/
def get_user_by_id (db : Db) (user_id : String) : Option User :=
  db.users.find? (fun u => u.id == user_id)

/-- Replace the row with `u.id` by `u` (ORM attribute mutation made
explicit). -/
def Db.updateUser (db : Db) (u : User) : Db :=
  { users := db.users.map (fun v => if v.id == u.id then u else v) }

/-- The typed failures of `app/services/auth.py`, each carrying the message
string the code raises it with. -/
inductive AuthServiceError where
  | userAlreadyExists (msg : String)
  | invalidCredentials (msg : String)
  | invalidToken (msg : String)
  | userNotFound (msg : String)
  | userInactive (msg : String)
  deriving Repr, DecidableEq

/-- Outcome of an operation that calls `verify_password`: either a typed
service failure or a passlib exception escaping the service uncaught. -/
inductive LoginError where
  | svc (e : AuthServiceError)
  | uncaughtPasslib (e : PasslibError)
  deriving Repr, DecidableEq

/-- Registration input (`app/schemas/auth.py` `UserCreate`); field
validation happens at the boundary and is out of scope. -/
structure UserCreate where
  email : String
  username : String
  password : String
  deriving Repr, DecidableEq

/-- `TokenPair` (`app/schemas/auth.py`): both tokens plus the session TTL in
seconds. -/
structure TokenPair where
  access_token : Token
  refresh_token : Token
  expires_in : Nat
  deriving Repr, DecidableEq

/-- `AuthService._create_tokens`: issue a fresh access and refresh token for
`user_id`; `expires_in` comes from configuration, not from the token. -/
def create_tokens (st : Settings) (user_id : String) (now : Nat) :
    TokenPair :=
  { access_token := create_access_token st user_id none now
    refresh_token := create_refresh_token st user_id none now
    expires_in := st.ACCESS_TOKEN_EXPIRE_MINUTES * 60 }

/-- `AuthService.register`: check email uniqueness, then username
uniqueness, then persist the new account and issue tokens.  `new_id` is the
id the persistence layer assigns at flush; `cost`/`salt` are the hashing
parameters passlib draws.  The new row's `is_active` default is modelled
from the spec: the Account model file is absent from the sources and the
spec states registration persists the account with active=true. -/
def register (bcrypt : Nat → String → String → String) (st : Settings)
    (cost : Nat) (salt : String) (now : Nat) (new_id : String) (db : Db)
    (user_data : UserCreate) :
    Except AuthServiceError (User × TokenPair) × Db :=
  match get_user_by_email db user_data.email with
  | some _ =>
      (.error (.userAlreadyExists "User with this email already exists"), db)
  | none =>
    match get_user_by_username db user_data.username with
    | some _ =>
        (.error (.userAlreadyExists "User with this username already exists"),
          db)
    | none =>
      let user : User :=
        { id := new_id
          email := user_data.email
          username := user_data.username
          password_hash := get_password_hash bcrypt cost salt
            user_data.password
          is_active := true
          last_login_at := none }
      (.ok (user, create_tokens st new_id now), { users := db.users ++ [user] })

/-- `AuthService.login`: look up by email, verify the password, check the
active flag, then stamp `last_login_at` and issue tokens.  Each `raise`
happens before any mutation, so the returned state on error paths is the
input state. -/
def login (bcrypt : Nat → String → String → String) (st : Settings)
    (now : Nat) (db : Db) (email password : String) :
    Except LoginError (User × TokenPair) × Db :=
  match get_user_by_email db email with
  | none =>
      (.error (.svc (.invalidCredentials "Invalid email or password")), db)
  | some user =>
    match verify_password bcrypt password user.password_hash with
    | .error e => (.error (.uncaughtPasslib e), db)
    | .ok false =>
        (.error (.svc (.invalidCredentials "Invalid email or password")), db)
    | .ok true =>
      if user.is_active then
        let user2 := { user with last_login_at := some now }
        (.ok (user2, create_tokens st user2.id now), db.updateUser user2)
      else
        (.error (.svc (.userInactive "User account is inactive")), db)

/-- `AuthService.refresh_tokens`: decode, require `type == "refresh"`,
require a truthy `sub` (Python falsiness: `None` and `""`), resolve the
subject against current state, re-check the active flag, then issue a
brand-new pair.  No state is mutated. -/
def refresh_tokens (st : Settings) (now : Nat) (db : Db)
    (refresh_token : Token) : Except AuthServiceError TokenPair :=
  match decode_token st now refresh_token with
  | none => .error (.invalidToken "Invalid or expired refresh token")
  | some payload =>
    if payload.typ ≠ some "refresh" then
      .error (.invalidToken "Invalid token type")
    else
      match payload.sub with
      | none => .error (.invalidToken "Invalid token payload")
      | some user_id =>
        if user_id = "" then .error (.invalidToken "Invalid token payload")
        else
          match get_user_by_id db user_id with
          | none => .error (.userNotFound "User not found")
          | some user =>
            if user.is_active then .ok (create_tokens st user.id now)
            else .error (.userInactive "User account is inactive")

/-- `AuthService.get_current_user`: as `refresh_tokens` but requiring
`type == "access"` and returning the live account row. -/
def get_current_user (st : Settings) (now : Nat) (db : Db) (token : Token) :
    Except AuthServiceError User :=
  match decode_token st now token with
  | none => .error (.invalidToken "Invalid or expired access token")
  | some payload =>
    if payload.typ ≠ some "access" then
      .error (.invalidToken "Invalid token type")
    else
      match payload.sub with
      | none => .error (.invalidToken "Invalid token payload")
      | some user_id =>
        if user_id = "" then .error (.invalidToken "Invalid token payload")
        else
          match get_user_by_id db user_id with
          | none => .error (.userNotFound "User not found")
          | some user =>
            if user.is_active then .ok user
            else .error (.userInactive "User account is inactive")

/-- `TokenResponse` (`app/schemas/auth.py`): the refresh endpoint's response
schema — a single token plus TTL; it has no refresh-token field. -/
structure TokenResponse where
  access_token : Token
  expires_in : Nat
  deriving Repr, DecidableEq

/-- The construction at `app/api/auth.py` lines 146-149: build the refresh
endpoint's response from the service's `TokenPair`, forwarding only the
access token and the TTL. -/
def token_response_of_pair (tokens : TokenPair) : TokenResponse :=
  { access_token := tokens.access_token, expires_in := tokens.expires_in }

/-- HTTP-level failures the auth endpoints translate service errors into. -/
inductive HttpError where
  | unauthorized (code msg : String)
  | forbidden (code msg : String)
  | internal
  deriving Repr, DecidableEq

/-- The `POST /refresh` endpoint (`app/api/auth.py` `refresh_token`): call
the service and forward only `access_token` and `expires_in`; translate the
typed failures to HTTP errors.  Service errors the handler does not catch
would surface as a 500 (`internal`). -/
def refresh_token_endpoint (st : Settings) (now : Nat) (db : Db)
    (token : Token) : Except HttpError TokenResponse :=
  match refresh_tokens st now db token with
  | .ok tokens => .ok (token_response_of_pair tokens)
  | .error (.invalidToken m) => .error (.unauthorized "INVALID_TOKEN" m)
  | .error (.userNotFound m) => .error (.unauthorized "USER_NOT_FOUND" m)
  | .error (.userInactive m) => .error (.forbidden "USER_INACTIVE" m)
  | .error _ => .error .internal

/-! ## Concrete fixtures used by witnesses and counterexamples -/

/-- Demo process configuration: 30-minute session TTL, 7-day refresh TTL. -/
def demoSettings : Settings :=
  { SECRET_KEY := "k0", ACCESS_TOKEN_EXPIRE_MINUTES := 30,
    REFRESH_TOKEN_EXPIRE_DAYS := 7 }

/-- A concrete stand-in for the bcrypt digest primitive, used only to
instantiate the parametric theorems on concrete inputs. -/
def demoBcrypt : Nat → String → String → String := fun _ _ p => p ++ "X"

/-- A 22-character salt, the length bcrypt hashes embed. -/
def demoSalt : String := "abcdefghijklmnopqrstuv"

/-- An active demo account whose stored hash is the bcrypt hash of
"Passw0rd1". -/
def demoUser : User :=
  { id := "u1", email := "a@x.com", username := "alice",
    password_hash := get_password_hash demoBcrypt 12 demoSalt "Passw0rd1",
    is_active := true, last_login_at := none }

/-- A disabled demo account. -/
def demoInactiveUser : User :=
  { id := "u2", email := "b@x.com", username := "bob",
    password_hash := get_password_hash demoBcrypt 12 demoSalt "Hunter2A",
    is_active := false, last_login_at := none }

/-- Demo account table holding one active and one disabled account. -/
def demoDb : Db := { users := [demoUser, demoInactiveUser] }

/-! ## Claims -/

/-- Claim C1: for every token that decodes successfully, a token whose
purpose tag is "access" (a session token) presented to `refresh_tokens`
fails with the token-type `InvalidTokenError`, and a token whose purpose
tag is "refresh" presented to `get_current_user` fails the same way: the
purpose tag alone decides which operation may accept the token. -/
theorem purpose_tag_gates_token_use (st : Settings) (now : Nat) (db : Db)
    (tok : Token) (payload : Payload)
    (hdec : decode_token st now tok = some payload) :
    (payload.typ = some "access" →
      refresh_tokens st now db tok =
        .error (.invalidToken "Invalid token type")) ∧
    (payload.typ = some "refresh" →
      get_current_user st now db tok =
        .error (.invalidToken "Invalid token type")) := by
  constructor
  · intro hty
    unfold refresh_tokens
    rw [hdec]
    simp [hty]
  · intro hty
    unfold get_current_user
    rw [hdec]
    simp [hty]

/-- Witness for C1 on concrete tokens: a freshly issued session token is
rejected by refresh, a freshly issued refresh token by resolve. -/
theorem purpose_tag_gates_token_use_witness :
    refresh_tokens demoSettings 0 demoDb
        (create_access_token demoSettings "u1" none 0) =
      .error (.invalidToken "Invalid token type") ∧
    get_current_user demoSettings 0 demoDb
        (create_refresh_token demoSettings "u1" none 0) =
      .error (.invalidToken "Invalid token type") := by
  constructor
  · exact (purpose_tag_gates_token_use demoSettings 0 demoDb
      (create_access_token demoSettings "u1" none 0)
      { sub := some "u1", exp := some 1800, typ := some "access",
        extra := [] } rfl).1 rfl
  · exact (purpose_tag_gates_token_use demoSettings 0 demoDb
      (create_refresh_token demoSettings "u1" none 0)
      { sub := some "u1", exp := some 604800, typ := some "refresh",
        extra := [] } rfl).2 rfl

/-- Claim C3: `decode_token` yields the single outcome `none` uniformly for
a token signed with a different secret, a structurally malformed token, and
a token whose expiry has lapsed; the result carries no information about
which cause occurred. -/
theorem decode_failures_collapse (st : Settings) (now : Nat) :
    (∀ payload secret alg, secret ≠ st.SECRET_KEY →
      decode_token st now (.signed payload secret alg) = none) ∧
    (∀ raw, decode_token st now (.malformed raw) = none) ∧
    (∀ payload secret alg e, payload.exp = some e → e < now →
      decode_token st now (.signed payload secret alg) = none) := by
  refine ⟨?_, ?_, ?_⟩
  · intro payload secret alg hsec
    unfold decode_token
    simp [hsec]
  · intro raw
    rfl
  · intro payload secret alg e hexp hlt
    by_cases hc : secret = st.SECRET_KEY ∧ alg = ALGORITHM
    · simp [decode_token, hc, hexp, hlt]
    · simp [decode_token, hc]

/-- Witness for C3: all three failure classes evaluate to `none` on
concrete tokens at time 10. -/
theorem decode_failures_collapse_witness :
    decode_token demoSettings 10
        (.signed { sub := some "u1", exp := some 100, typ := some "access",
                   extra := [] } "other" "HS256") = none ∧
    decode_token demoSettings 10 (.malformed "garbage") = none ∧
    decode_token demoSettings 10
        (.signed { sub := some "u1", exp := some 5, typ := some "access",
                   extra := [] } "k0" "HS256") = none := by
  refine ⟨?_, ?_, ?_⟩
  · exact (decode_failures_collapse demoSettings 10).1
      { sub := some "u1", exp := some 100, typ := some "access",
        extra := [] } "other" "HS256" (by decide)
  · exact (decode_failures_collapse demoSettings 10).2.1 "garbage"
  · exact (decode_failures_collapse demoSettings 10).2.2
      { sub := some "u1", exp := some 5, typ := some "access", extra := [] }
      "k0" "HS256" 5 rfl (by decide)

/-- Claim C8: decoding a token produced by the token constructors with the
same secret, at any time up to the expiry instant, reproduces exactly the
three claims sub, exp and type — and no others (`extra` is empty). -/
theorem decode_encode_roundtrip (st : Settings) (subject : String)
    (d : Option Nat) (now now2 : Nat) :
    (now2 ≤ now + d.getD (st.ACCESS_TOKEN_EXPIRE_MINUTES * 60) →
      decode_token st now2 (create_access_token st subject d now) =
        some { sub := some subject,
               exp := some (now + d.getD (st.ACCESS_TOKEN_EXPIRE_MINUTES * 60)),
               typ := some "access", extra := [] }) ∧
    (now2 ≤ now + d.getD (st.REFRESH_TOKEN_EXPIRE_DAYS * 86400) →
      decode_token st now2 (create_refresh_token st subject d now) =
        some { sub := some subject,
               exp := some (now + d.getD (st.REFRESH_TOKEN_EXPIRE_DAYS * 86400)),
               typ := some "refresh", extra := [] }) := by
  constructor
  · intro h
    unfold create_access_token decode_token
    simp [Nat.not_lt.mpr h]
  · intro h
    unfold create_refresh_token decode_token
    simp [Nat.not_lt.mpr h]

/-- Witness for C8: a session token and a refresh token issued at time 0
decode at time 1800 (the session expiry instant) and time 604800 back to
exactly their claims. -/
theorem decode_encode_roundtrip_witness :
    decode_token demoSettings 1800 (create_access_token demoSettings "u1" none 0) =
      some { sub := some "u1", exp := some 1800, typ := some "access",
             extra := [] } ∧
    decode_token demoSettings 604800 (create_refresh_token demoSettings "u1" none 0) =
      some { sub := some "u1", exp := some 604800, typ := some "refresh",
             extra := [] } := by
  constructor
  · exact (decode_encode_roundtrip demoSettings "u1" none 0 1800).1 (by decide)
  · exact (decode_encode_roundtrip demoSettings "u1" none 0 604800).2 (by decide)

/-- Claim C2: login with an email matching no account and login with an
existing email whose password fails verification raise the same failure —
`InvalidCredentialsError` with the same message — so the two outcomes are
indistinguishable and never reveal whether the email exists. -/
theorem login_failures_indistinguishable
    (bcrypt : Nat → String → String → String) (st : Settings) (now : Nat)
    (db : Db) (email1 pw1 email2 pw2 : String) (user : User)
    (h1 : get_user_by_email db email1 = none)
    (h2 : get_user_by_email db email2 = some user)
    (hv : verify_password bcrypt pw2 user.password_hash = .ok false) :
    (login bcrypt st now db email1 pw1).1 =
      .error (.svc (.invalidCredentials "Invalid email or password")) ∧
    (login bcrypt st now db email2 pw2).1 =
      .error (.svc (.invalidCredentials "Invalid email or password")) ∧
    (login bcrypt st now db email1 pw1).1 =
      (login bcrypt st now db email2 pw2).1 := by
  have a1 : (login bcrypt st now db email1 pw1).1 =
      .error (.svc (.invalidCredentials "Invalid email or password")) := by
    simp [login, h1]
  have a2 : (login bcrypt st now db email2 pw2).1 =
      .error (.svc (.invalidCredentials "Invalid email or password")) := by
    simp [login, h2, hv]
  exact ⟨a1, a2, a1.trans a2.symm⟩

/-- Witness for C2: a nonexistent email and a wrong password for the demo
account produce literally equal outcomes. -/
theorem login_failures_indistinguishable_witness :
    (login demoBcrypt demoSettings 50 demoDb "nobody@x.com" "Whatever1").1 =
      .error (.svc (.invalidCredentials "Invalid email or password")) ∧
    (login demoBcrypt demoSettings 50 demoDb "a@x.com" "WrongPw99").1 =
      .error (.svc (.invalidCredentials "Invalid email or password")) ∧
    (login demoBcrypt demoSettings 50 demoDb "nobody@x.com" "Whatever1").1 =
      (login demoBcrypt demoSettings 50 demoDb "a@x.com" "WrongPw99").1 := by
  exact login_failures_indistinguishable demoBcrypt demoSettings 50 demoDb
    "nobody@x.com" "Whatever1" "a@x.com" "WrongPw99" demoUser
    (by decide) (by decide) (by decide)

/-- Claim C7: the active flag is checked only after the password verifies:
an inactive account with a verifying password fails with
`UserInactiveError`, while an inactive account with a non-verifying
password fails with the generic `InvalidCredentialsError`, so the disabled
state is never revealed on an unauthenticated path. -/
theorem inactive_checked_after_credentials
    (bcrypt : Nat → String → String → String) (st : Settings) (now : Nat)
    (db : Db) (email pw : String) (user : User)
    (hu : get_user_by_email db email = some user)
    (hinactive : user.is_active = false) :
    (verify_password bcrypt pw user.password_hash = .ok true →
      (login bcrypt st now db email pw).1 =
        .error (.svc (.userInactive "User account is inactive"))) ∧
    (verify_password bcrypt pw user.password_hash = .ok false →
      (login bcrypt st now db email pw).1 =
        .error (.svc (.invalidCredentials "Invalid email or password"))) := by
  constructor
  · intro hv
    simp [login, hu, hv, hinactive]
  · intro hv
    simp [login, hu, hv]

/-- Witness for C7: the disabled demo account with its correct password
"Hunter2A" yields the inactive error; with a wrong password it yields the
generic credentials error. -/
theorem inactive_checked_after_credentials_witness :
    (login demoBcrypt demoSettings 50 demoDb "b@x.com" "Hunter2A").1 =
      .error (.svc (.userInactive "User account is inactive")) ∧
    (login demoBcrypt demoSettings 50 demoDb "b@x.com" "WrongPw99").1 =
      .error (.svc (.invalidCredentials "Invalid email or password")) := by
  constructor
  · exact (inactive_checked_after_credentials demoBcrypt demoSettings 50
      demoDb "b@x.com" "Hunter2A" demoInactiveUser (by decide) rfl).1
      (by decide)
  · exact (inactive_checked_after_credentials demoBcrypt demoSettings 50
      demoDb "b@x.com" "WrongPw99" demoInactiveUser (by decide) rfl).2
      (by decide)

/-- Unfolding lemma for `login` once the account lookup has resolved. -/
theorem login_eq_of_lookup (bcrypt : Nat → String → String → String)
    (st : Settings) (now : Nat) (db : Db) (email pw : String) (user : User)
    (hu : get_user_by_email db email = some user) :
    login bcrypt st now db email pw =
      match verify_password bcrypt pw user.password_hash with
      | .error e => (.error (.uncaughtPasslib e), db)
      | .ok false =>
          (.error (.svc (.invalidCredentials "Invalid email or password")),
            db)
      | .ok true =>
          if user.is_active then
            (.ok ({ user with last_login_at := some now },
                create_tokens st user.id now),
              db.updateUser { user with last_login_at := some now })
          else
            (.error (.svc (.userInactive "User account is inactive")), db) := by
  unfold login
  rw [hu]

/-- Claim C10: on every failure path of login the account table is left
unchanged (in particular `last_login_at`); on success the only change is
that the authenticated account's `last_login_at` is stamped with the
current time. -/
theorem login_failure_frame (bcrypt : Nat → String → String → String)
    (st : Settings) (now : Nat) (db : Db) (email pw : String) :
    (∀ e, (login bcrypt st now db email pw).1 = .error e →
      (login bcrypt st now db email pw).2 = db) ∧
    (∀ u tokens, (login bcrypt st now db email pw).1 = .ok (u, tokens) →
      u.last_login_at = some now ∧
      (login bcrypt st now db email pw).2 = db.updateUser u ∧
      ∃ u0, get_user_by_email db email = some u0 ∧
        u = { u0 with last_login_at := some now }) := by
  cases hu : get_user_by_email db email with
  | none =>
    have hl : login bcrypt st now db email pw =
        (.error (.svc (.invalidCredentials "Invalid email or password")),
          db) := by
      unfold login
      rw [hu]
    rw [hl]
    simp
  | some user =>
    rw [login_eq_of_lookup bcrypt st now db email pw user hu]
    generalize verify_password bcrypt pw user.password_hash = vres
    cases vres with
    | error e => simp
    | ok b =>
      cases b with
      | false => simp
      | true =>
        by_cases ha : user.is_active
        · rw [if_pos ha]
          refine ⟨?_, ?_⟩
          · intro e h
            simp at h
          · intro u tokens h
            replace h : (Except.ok ({ user with last_login_at := some now },
                  create_tokens st user.id now) :
                Except LoginError (User × TokenPair)) = Except.ok (u, tokens) := h
            rw [Except.ok.injEq, Prod.mk.injEq] at h
            obtain ⟨h1, h2⟩ := h
            subst h1
            subst h2
            exact ⟨rfl, rfl, user, rfl, rfl⟩
        · rw [if_neg ha]
          simp

/-- Witness for C10: a failed login (wrong password) leaves the demo table
unchanged, and a successful login stamps the timestamp. -/
theorem login_failure_frame_witness :
    (login demoBcrypt demoSettings 50 demoDb "a@x.com" "WrongPw99").2 =
      demoDb ∧
    ({ demoUser with last_login_at := some 50 } : User).last_login_at =
      some 50 := by
  constructor
  · exact (login_failure_frame demoBcrypt demoSettings 50 demoDb "a@x.com"
      "WrongPw99").1
      (.svc (.invalidCredentials "Invalid email or password")) (by decide)
  · exact ((login_failure_frame demoBcrypt demoSettings 50 demoDb "a@x.com"
      "Passw0rd1").2
      { demoUser with last_login_at := some 50 }
      (create_tokens demoSettings "u1" 50) (by decide)).1

/-- Claim C4: for a decoded, unexpired token of the right purpose whose
subject resolves to an account, both refresh and resolve re-check the
account's active flag at call time: an inactive account yields
`UserInactiveError`, never a reissue or a resolved identity. -/
theorem active_flag_rechecked_at_use (st : Settings) (now : Nat) (db : Db)
    (tok : Token) (payload : Payload) (uid : String) (user : User)
    (hdec : decode_token st now tok = some payload)
    (hsub : payload.sub = some uid) (hne : uid ≠ "")
    (huser : get_user_by_id db uid = some user)
    (hinactive : user.is_active = false) :
    (payload.typ = some "refresh" →
      refresh_tokens st now db tok =
        .error (.userInactive "User account is inactive")) ∧
    (payload.typ = some "access" →
      get_current_user st now db tok =
        .error (.userInactive "User account is inactive")) := by
  constructor
  · intro hty
    unfold refresh_tokens
    rw [hdec]
    simp [hty, hsub, hne, huser, hinactive]
  · intro hty
    unfold get_current_user
    rw [hdec]
    simp [hty, hsub, hne, huser, hinactive]

/-- Witness for C4: tokens of either purpose for the disabled demo account
are refused with the inactive error by the respective operation. -/
theorem active_flag_rechecked_at_use_witness :
    refresh_tokens demoSettings 0 demoDb
        (create_refresh_token demoSettings "u2" none 0) =
      .error (.userInactive "User account is inactive") ∧
    get_current_user demoSettings 0 demoDb
        (create_access_token demoSettings "u2" none 0) =
      .error (.userInactive "User account is inactive") := by
  constructor
  · exact (active_flag_rechecked_at_use demoSettings 0 demoDb
      (create_refresh_token demoSettings "u2" none 0)
      { sub := some "u2", exp := some 604800, typ := some "refresh",
        extra := [] } "u2" demoInactiveUser rfl rfl (by decide)
      (by decide) rfl).1 rfl
  · exact (active_flag_rechecked_at_use demoSettings 0 demoDb
      (create_access_token demoSettings "u2" none 0)
      { sub := some "u2", exp := some 1800, typ := some "access",
        extra := [] } "u2" demoInactiveUser rfl rfl (by decide)
      (by decide) rfl).2 rfl

/-- Claim C6: `register` checks email uniqueness first and username
uniqueness second, both before any persistence: a conflict on either field
raises `UserAlreadyExistsError` and leaves the table unchanged (the email
conflict wins even when both conflict); otherwise the password is hashed,
a new account is appended, and a token pair for the new id is issued. -/
theorem register_checks_precede_persistence
    (bcrypt : Nat → String → String → String) (st : Settings) (cost : Nat)
    (salt : String) (now : Nat) (new_id : String) (db : Db)
    (user_data : UserCreate) :
    (∀ u, get_user_by_email db user_data.email = some u →
      register bcrypt st cost salt now new_id db user_data =
        (.error (.userAlreadyExists "User with this email already exists"),
          db)) ∧
    (get_user_by_email db user_data.email = none →
      ∀ u, get_user_by_username db user_data.username = some u →
      register bcrypt st cost salt now new_id db user_data =
        (.error
          (.userAlreadyExists "User with this username already exists"),
          db)) ∧
    (get_user_by_email db user_data.email = none →
      get_user_by_username db user_data.username = none →
      register bcrypt st cost salt now new_id db user_data =
        (.ok ({ id := new_id, email := user_data.email,
                username := user_data.username,
                password_hash := get_password_hash bcrypt cost salt
                  user_data.password,
                is_active := true, last_login_at := none },
              create_tokens st new_id now),
          { users := db.users ++
              [{ id := new_id, email := user_data.email,
                 username := user_data.username,
                 password_hash := get_password_hash bcrypt cost salt
                   user_data.password,
                 is_active := true, last_login_at := none }] })) := by
  refine ⟨?_, ?_, ?_⟩
  · intro u hu
    unfold register
    rw [hu]
  · intro he u hu
    unfold register
    rw [he, hu]
  · intro he hn
    unfold register
    rw [he, hn]

/-- Witness for C6: registering a taken email (even with a taken username)
reports the email conflict and leaves the table unchanged; a fresh
email/username pair appends exactly the new account. -/
theorem register_checks_precede_persistence_witness :
    register demoBcrypt demoSettings 12 demoSalt 50 "u9" demoDb
        { email := "a@x.com", username := "bob", password := "NewPass1" } =
      (.error (.userAlreadyExists "User with this email already exists"),
        demoDb) ∧
    register demoBcrypt demoSettings 12 demoSalt 50 "u9" demoDb
        { email := "c@x.com", username := "carol", password := "NewPass1" } =
      (.ok ({ id := "u9", email := "c@x.com", username := "carol",
              password_hash := get_password_hash demoBcrypt 12 demoSalt
                "NewPass1",
              is_active := true, last_login_at := none },
            create_tokens demoSettings "u9" 50),
        { users := demoDb.users ++
            [{ id := "u9", email := "c@x.com", username := "carol",
               password_hash := get_password_hash demoBcrypt 12 demoSalt
                 "NewPass1",
               is_active := true, last_login_at := none }] }) := by
  constructor
  · exact (register_checks_precede_persistence demoBcrypt demoSettings 12
      demoSalt 50 "u9" demoDb
      { email := "a@x.com", username := "bob", password := "NewPass1" }).1
      demoUser (by decide)
  · exact (register_checks_precede_persistence demoBcrypt demoSettings 12
      demoSalt 50 "u9" demoDb
      { email := "c@x.com", username := "carol",
        password := "NewPass1" }).2.2 (by decide) (by decide)

/-- Claim C9 counterexample: the refresh endpoint's response is built at
`app/api/auth.py` lines 146-149 from only `access_token` and `expires_in`
of the service's pair, so the caller cannot receive the replaced refresh
token: two pairs that differ only in their refresh token produce literally
equal responses. -/
theorem refresh_response_drops_refresh_token :
    token_response_of_pair
        { access_token := Token.malformed "a",
          refresh_token := Token.malformed "r1", expires_in := 1800 } =
      token_response_of_pair
        { access_token := Token.malformed "a",
          refresh_token := Token.malformed "r2", expires_in := 1800 } ∧
    TokenPair.refresh_token
        { access_token := Token.malformed "a",
          refresh_token := Token.malformed "r1", expires_in := 1800 } ≠
      TokenPair.refresh_token
        { access_token := Token.malformed "a",
          refresh_token := Token.malformed "r2", expires_in := 1800 } := by
  exact ⟨rfl, by decide⟩

/-- Claim C9 (amended): for a valid refresh token of an active account the
service returns a brand-new `TokenPair` in which both tokens are freshly
issued; the HTTP refresh endpoint, however, forwards only the new session
token and TTL to its caller — the new refresh token is not part of the
response. -/
theorem refresh_reissues_pair_service_level (st : Settings) (now : Nat)
    (db : Db) (tok : Token) (payload : Payload) (uid : String) (user : User)
    (hdec : decode_token st now tok = some payload)
    (hty : payload.typ = some "refresh")
    (hsub : payload.sub = some uid) (hne : uid ≠ "")
    (huser : get_user_by_id db uid = some user)
    (hactive : user.is_active = true) :
    refresh_tokens st now db tok =
      .ok { access_token := create_access_token st user.id none now,
            refresh_token := create_refresh_token st user.id none now,
            expires_in := st.ACCESS_TOKEN_EXPIRE_MINUTES * 60 } ∧
    refresh_token_endpoint st now db tok =
      .ok { access_token := create_access_token st user.id none now,
            expires_in := st.ACCESS_TOKEN_EXPIRE_MINUTES * 60 } := by
  have hs : refresh_tokens st now db tok =
      .ok { access_token := create_access_token st user.id none now,
            refresh_token := create_refresh_token st user.id none now,
            expires_in := st.ACCESS_TOKEN_EXPIRE_MINUTES * 60 } := by
    unfold refresh_tokens
    rw [hdec]
    simp [hty, hsub, hne, huser, hactive, create_tokens]
  refine ⟨hs, ?_⟩
  unfold refresh_token_endpoint
  rw [hs]
  rfl

/-- Witness for the amended C9: refreshing a valid token of the active demo
account yields the fresh pair from the service and the truncated response
from the endpoint. -/
theorem refresh_reissues_pair_service_level_witness :
    refresh_tokens demoSettings 0 demoDb
        (create_refresh_token demoSettings "u1" none 0) =
      .ok { access_token := create_access_token demoSettings "u1" none 0,
            refresh_token := create_refresh_token demoSettings "u1" none 0,
            expires_in := 1800 } ∧
    refresh_token_endpoint demoSettings 0 demoDb
        (create_refresh_token demoSettings "u1" none 0) =
      .ok { access_token := create_access_token demoSettings "u1" none 0,
            expires_in := 1800 } := by
  exact refresh_reissues_pair_service_level demoSettings 0 demoDb
    (create_refresh_token demoSettings "u1" none 0)
    { sub := some "u1", exp := some 604800, typ := some "refresh",
      extra := [] } "u1" demoUser rfl rfl rfl (by decide) (by decide) rfl

/-- Claim C5 counterexample: `verify_password` is not total on arbitrary
hash strings: on a string passlib cannot identify as a bcrypt hash it
raises (`UnknownHashError`), it does not return false. -/
theorem verify_password_raises_on_unidentified_hash :
    verify_password demoBcrypt "Passw0rd1" "not-a-bcrypt-hash" =
      .error PasslibError.unknownHash ∧
    verify_password demoBcrypt "Passw0rd1" "not-a-bcrypt-hash" ≠
      .ok false := by
  exact ⟨by decide, by decide⟩

/-- Claim C5 (amended): on a hash that parses as a bcrypt hash,
`verify_password` is total and returns exactly the boolean digest
comparison (false for any non-matching password); on a hash that does not
parse it raises a passlib error — `MalformedHashError` when the bcrypt
prefix is present, `UnknownHashError` otherwise — instead of returning
false. -/
theorem verify_password_wellformed_vs_malformed
    (bcrypt : Nat → String → String → String) (pw h : String) :
    (∀ cost salt digest, parseBcryptHash h = some (cost, salt, digest) →
      verify_password bcrypt pw h = .ok (bcrypt cost salt pw == digest)) ∧
    (parseBcryptHash h = none →
      verify_password bcrypt pw h =
        .error (if bcryptIdentify h then .malformedHash
                else .unknownHash)) := by
  constructor
  · intro cost salt digest hp
    unfold verify_password crypt_context_verify
    rw [hp]
  · intro hp
    unfold verify_password crypt_context_verify
    rw [hp]

/-- Witness for the amended C5: a wrong password against the demo account's
well-formed stored hash yields `ok false`; an identified-but-corrupt bcrypt
string raises the malformed error; an unidentified string raises the
unknown-hash error. -/
theorem verify_password_wellformed_vs_malformed_witness :
    verify_password demoBcrypt "WrongPw99" demoUser.password_hash =
      .ok false ∧
    verify_password demoBcrypt "Passw0rd1" "$2b$cost$corrupt" =
      .error PasslibError.malformedHash ∧
    verify_password demoBcrypt "Passw0rd1" "zzz" =
      .error PasslibError.unknownHash := by
  refine ⟨?_, ?_, ?_⟩
  · have := (verify_password_wellformed_vs_malformed demoBcrypt "WrongPw99"
      demoUser.password_hash).1 12 demoSalt "Passw0rd1X" (by decide)
    rw [this]
    decide
  · have := (verify_password_wellformed_vs_malformed demoBcrypt "Passw0rd1"
      "$2b$cost$corrupt").2 (by decide)
    rw [this]
    decide
  · have := (verify_password_wellformed_vs_malformed demoBcrypt "Passw0rd1"
      "zzz").2 (by decide)
    rw [this]
    decide
